import Mathlib

/-!
# Verification of the ChatKit starter backend

A shallow embedding, in Lean, of the conversation assembler, response
relay, citation extraction, file re-upload helper, and container-file
endpoint of the ChatKit starter backend
(`backend/app/server.py`, `backend/app/main.py`), together with proofs
of the behavioural properties stated in the repository's specification.

External collaborators (the OpenAI file-origin service, Vercel blob
storage, the agent runner's event stream) are modelled as parameters:
their possible outcomes are explicit values the embedded functions
branch on, exactly as the Python code branches on the corresponding
call results and exceptions.
-/

namespace ChatKitStarter

/-- A conversation item stored in a thread.  Only its identity matters to
the assembler, which treats items opaquely; the stored payload is kept as
an identifier. -/
structure ThreadItem where
  id : String
  deriving DecidableEq, Repr

/-- The `order` argument of `load_thread_items` ("asc" = oldest first,
"desc" = newest first). -/
inductive Order where
  | asc
  | desc
  deriving DecidableEq, Repr

/-- Modelled from the spec: `MemoryStore.load_thread_items` lives in
`backend/app/memory_store.py`, which is not among the provided source
files.  Spec section 4.1: items of a thread are totally ordered by append
sequence; with no cursor, `order="desc"` returns items newest first and
`limit` bounds the number returned, `order="asc"` returns them oldest
first.  A thread's items are represented here as the chronological
(append-order) list. -/
def load_thread_items (items : List ThreadItem) (limit : Nat) (order : Order) :
    List ThreadItem :=
  match order with
  | .asc => items.take limit
  | .desc => items.reverse.take limit

/-- `MAX_RECENT_ITEMS` from `server.py`. -/
def MAX_RECENT_ITEMS : Nat := 30

/-- The conversation assembler of `StarterChatServer.respond`
(`server.py` lines 136-144): request a page with `order="desc"` and
`limit=MAX_RECENT_ITEMS`, then `list(reversed(items_page.data))`. -/
def assembleConversation (items : List ThreadItem) : List ThreadItem :=
  (load_thread_items items MAX_RECENT_ITEMS .desc).reverse

/-- C1 -- For every thread, the conversation assembler hands the
agent-input converter the at-most-30 most recent items in chronological
(oldest-to-newest) order: the result is exactly `items.drop (length - 30)`.
For a thread with 45 items this is the last 30 in chronological order; for
a thread with 5 items it is all 5 in chronological order. -/
theorem assembler_takes_recent_chronological (items : List ThreadItem) :
    assembleConversation items = items.drop (items.length - MAX_RECENT_ITEMS)
    ∧ (items.length = 45 →
        assembleConversation items = items.drop 15
        ∧ (assembleConversation items).length = 30)
    ∧ (items.length ≤ 30 → assembleConversation items = items) := by
  have hmain : assembleConversation items
      = items.drop (items.length - MAX_RECENT_ITEMS) := by
    unfold assembleConversation load_thread_items
    rw [List.take_reverse, List.reverse_reverse]
  refine ⟨hmain, ?_, ?_⟩
  · intro h45
    constructor
    · rw [hmain, h45]
      norm_num [MAX_RECENT_ITEMS]
    · rw [hmain, List.length_drop, h45]
      norm_num [MAX_RECENT_ITEMS]
  · intro hle
    rw [hmain]
    have : items.length - MAX_RECENT_ITEMS = 0 := by
      unfold MAX_RECENT_ITEMS
      omega
    rw [this, List.drop_zero]

/-- Witness for C1: the assembler applied to concrete threads of 45 and
of 5 items. -/
theorem assembler_takes_recent_chronological_witness :
    (((List.range 45).map fun n => ThreadItem.mk (toString n)).length = 45
      ∧ assembleConversation ((List.range 45).map fun n => ThreadItem.mk (toString n))
          = ((List.range 45).map fun n => ThreadItem.mk (toString n)).drop 15)
    ∧ (((List.range 5).map fun n => ThreadItem.mk (toString n)).length ≤ 30
      ∧ assembleConversation ((List.range 5).map fun n => ThreadItem.mk (toString n))
          = (List.range 5).map fun n => ThreadItem.mk (toString n)) := by
  have h45 : ((List.range 45).map fun n => ThreadItem.mk (toString n)).length = 45 := by
    simp
  have h5 : ((List.range 5).map fun n => ThreadItem.mk (toString n)).length ≤ 30 := by
    simp
  exact ⟨⟨h45, ((assembler_takes_recent_chronological _).2.1 h45).1⟩,
         ⟨h5, (assembler_takes_recent_chronological _).2.2 h5⟩⟩

/-! ## Raw responses and citation extraction (`server.py` lines 168-199) -/

/-- One annotation of a content part of a raw response.  Every attribute
is read with `getattr(..., None)` in the source, so each is optional. -/
structure Annotation where
  type : Option String
  container_id : Option String
  file_id : Option String
  filename : Option String
  deriving DecidableEq, Repr

/-- One content entry of an output item; `annotations` is read with
`getattr(content, "annotations", None)`. -/
structure ContentPart where
  annotations : Option (List Annotation)
  deriving DecidableEq, Repr

/-- One output item of a raw response; `content` is read with
`getattr(output_item, "content", None)`. -/
structure OutputItem where
  content : Option (List ContentPart)
  deriving DecidableEq, Repr

/-- A raw response accumulated by the agent run; `output` is read with
`getattr(response, "output", None)`. -/
structure RawResponse where
  output : Option (List OutputItem)
  deriving DecidableEq, Repr

/-- A collected container-file citation (the dict appended to
`container_files`). -/
structure ContainerFile where
  container_id : String
  file_id : String
  filename : String
  deriving DecidableEq, Repr

/-- Python truthiness of an optional string: `None` and `""` are falsy,
any other string is truthy. -/
def truthyStr : Option String → Bool
  | none => false
  | some s => !s.isEmpty

/-- Python truthiness of an optional list: `None` and `[]` are falsy, and
`if not xs: continue` followed by iteration over `xs` is iteration over
the empty list in either falsy case. -/
def optList : Option (List α) → List α
  | none => []
  | some l => l

/-- The innermost citation test of `respond` (`server.py` lines 185-196):
an annotation yields a citation exactly when its `type` is
`"container_file_citation"` and `container_id`, `file_id`, `filename` are
all truthy. -/
def annotationCitation (a : Annotation) : Option ContainerFile :=
  if a.type = some "container_file_citation" then
    match a.container_id, a.file_id, a.filename with
    | some cid, some fid, some fn =>
        if !cid.isEmpty && !fid.isEmpty && !fn.isEmpty then
          some { container_id := cid, file_id := fid, filename := fn }
        else none
    | _, _, _ => none
  else none

/-- The innermost loop of the extraction (`server.py` lines 181-197):
the citations contributed by one content entry, its `annotations`
guarded by a falsiness `continue`. -/
def contentCitations (content : ContentPart) : List ContainerFile :=
  (optList content.annotations).filterMap annotationCitation

/-- The citations contributed by one output item (`server.py` lines
177-197), its `content` guarded by a falsiness `continue`. -/
def outputItemCitations (output_item : OutputItem) : List ContainerFile :=
  (optList output_item.content).flatMap contentCitations

/-- The citations contributed by one raw response (`server.py` lines
174-197), its `output` guarded by a falsiness `continue`. -/
def responseCitations (response : RawResponse) : List ContainerFile :=
  (optList response.output).flatMap outputItemCitations

/-- The citation-extraction loop of `respond` (`server.py` lines
171-197): walk `response.output[*].content[*].annotations[*]` with every
level guarded by a falsiness `continue`, appending each matching
annotation, in order, to `container_files`. -/
def extractCitations (responses : List RawResponse) : List ContainerFile :=
  responses.flatMap responseCitations

/-! ## `upload_container_file_to_blob` (`server.py` lines 44-84) -/

/-- Outcome of the download from the OpenAI container: the bytes, an
`httpx.HTTPStatusError` raised by `raise_for_status` carrying a status
code, or any other exception. -/
inductive DownloadResult where
  | ok (content : List Nat)
  | statusError (code : Nat)
  | otherError
  deriving DecidableEq, Repr

/-- Outcome of `vercel_blob.put`: a result dict whose `"url"` key may be
absent (`result.get("url")` is then `None`), or an exception. -/
inductive PutResult where
  | ok (url : Option String)
  | failure
  deriving DecidableEq, Repr

/-- The environment an invocation of `upload_container_file_to_blob`
runs against: the `OPENAI_API_KEY` variable and the behaviour of the two
external calls. -/
structure UploadEnv where
  apiKey : Option String
  download : DownloadResult
  put : PutResult
  deriving DecidableEq, Repr

/-- External calls performed by `upload_container_file_to_blob`, in
order. -/
inductive UploadStep where
  | downloadCall
  | putCall
  deriving DecidableEq, Repr

/-- What one run of `upload_container_file_to_blob` produces: the value
returned to the caller, the external calls it made, and the messages it
logged at error level. -/
structure UploadOutcome where
  result : Option String
  calls : List UploadStep
  errorLogs : List String
  deriving DecidableEq, Repr

/-- `upload_container_file_to_blob` (`server.py` lines 44-84): check the
API key, download the container file, upload the bytes to blob storage,
return the blob URL; every failure path is caught and returns `None`. -/
def upload_container_file_to_blob (env : UploadEnv) : UploadOutcome :=
  if truthyStr env.apiKey = false then
    { result := none, calls := [], errorLogs := ["OPENAI_API_KEY not set"] }
  else
    match env.download with
    | .statusError code =>
        { result := none, calls := [.downloadCall]
          errorLogs := ["HTTP error downloading from OpenAI: " ++ toString code] }
    | .otherError =>
        { result := none, calls := [.downloadCall]
          errorLogs := ["Error uploading to Vercel Blob: download failed"] }
    | .ok _content =>
        match env.put with
        | .failure =>
            { result := none, calls := [.downloadCall, .putCall]
              errorLogs := ["Error uploading to Vercel Blob: put failed"] }
        | .ok url =>
            { result := url, calls := [.downloadCall, .putCall], errorLogs := [] }

/-! ## The response relay (`server.py` lines 128-247) -/

/-- One content entry of the synthesized assistant message. -/
structure AssistantMessageContent where
  type : String
  text : String
  annotations : List Annotation
  deriving DecidableEq, Repr

/-- The synthesized assistant-message item. -/
structure AssistantMessageItem where
  id : String
  thread_id : String
  created_at : Nat
  content : List AssistantMessageContent
  deriving DecidableEq, Repr

/-- A stream event yielded by `respond`: either an event relayed verbatim
from `stream_agent_response` (kept opaque), or one of the two synthesized
thread-item events. -/
inductive StreamEvent where
  | relayed (tag : Nat)
  | itemAdded (item : AssistantMessageItem)
  | itemDone (item : AssistantMessageItem)
  deriving DecidableEq, Repr

/-- The markdown link built for one successful upload
(`server.py` line 215): the paperclip prefix as stored in the source,
then `[filename](blob_url)`. -/
def mkLink (filename url : String) : String :=
  "üìé [" ++ filename ++ "](" ++ url ++ ")"

/-- The body of the upload loop of `respond` (`server.py` lines 208-218)
for one citation: call the uploader and produce the markdown link exactly
when the returned `blob_url` is truthy. -/
def linkOf (uploader : ContainerFile → Option String) (cf : ContainerFile) :
    Option String :=
  match uploader cf with
  | some url => if url.isEmpty then none else some (mkLink cf.filename url)
  | none => none

/-- The upload loop of `respond` (`server.py` lines 206-218): one upload
per entry of `container_files`, appending a link exactly when the
returned `blob_url` is truthy. -/
def buildLinks (uploader : ContainerFile → Option String) :
    List ContainerFile → List String :=
  List.filterMap (linkOf uploader)

/-- `download_text` (`server.py` line 223): header as stored in the
source, then the links joined by newlines. -/
def downloadText (links : List String) : String :=
  "\n\n---\n**ÏÉùÏÑ±Îêú ÌååÏùº Îã§Ïö¥Î°úÎìú:**\n"
    ++ String.intercalate "\n" links

/-- `download_item_id` (`server.py` line 226): `"dl_"` followed by twelve
hex digits of a fresh UUID, the latter taken as a parameter. -/
def downloadItemId (uuidHex12 : String) : String := "dl_" ++ uuidHex12

/-- `download_item` (`server.py` lines 228-239). -/
def downloadItem (uuidHex12 threadId : String) (now : Nat)
    (links : List String) : AssistantMessageItem :=
  { id := downloadItemId uuidHex12
    thread_id := threadId
    created_at := now
    content := [{ type := "output_text", text := downloadText links
                  annotations := [] }] }

/-- What one run of the post-stream phase of `respond` produces: the full
event sequence yielded to the caller and the sequence of
`upload_container_file_to_blob` invocations (by citation, in order). -/
structure RespondOutcome where
  events : List StreamEvent
  uploads : List ContainerFile
  deriving DecidableEq, Repr

/-- The response relay (`server.py` lines 164-246): yield every event of
`stream_agent_response` as it arrives, then extract container-file
citations from the raw responses; if any were found, upload each one and
collect a markdown link per truthy blob URL; if any link was built, yield
an added and a done event for one synthesized assistant message. -/
def respondModel (stream : List StreamEvent) (responses : List RawResponse)
    (uploader : ContainerFile → Option String)
    (uuidHex12 threadId : String) (now : Nat) : RespondOutcome :=
  let container_files := extractCitations responses
  if container_files.isEmpty then
    { events := stream, uploads := [] }
  else
    let links := buildLinks uploader container_files
    if links.isEmpty then
      { events := stream, uploads := container_files }
    else
      let item := downloadItem uuidHex12 threadId now links
      { events := stream ++ [.itemAdded item, .itemDone item]
        uploads := container_files }

/-- The `try`/`except` guarding the extraction loop (`server.py` lines
169-199): citations are appended one by one, so an exception raised at
any point of the walk is caught by the handler and leaves in
`container_files` exactly the citations appended before the raise -- a
prefix of the full extraction.  `abort = none` models a run in which no
exception is raised; `abort = some k` models an exception raised after
`k` citations were appended (in particular `some 0` is an exception
before any append, leaving the list empty). -/
def extractCitationsCaught (responses : List RawResponse)
    (abort : Option Nat) : List ContainerFile :=
  match abort with
  | none => extractCitations responses
  | some k => (extractCitations responses).take k

/-- The response relay including the `try`/`except` around extraction
(`server.py` lines 164-246): relay the stream, run the guarded
extraction -- an exception raised mid-walk is caught, leaving the
already-collected prefix -- then proceed with the uploads and the
synthesized message exactly as `respondModel` does. -/
def respondModelCaught (stream : List StreamEvent)
    (responses : List RawResponse) (abort : Option Nat)
    (uploader : ContainerFile → Option String)
    (uuidHex12 threadId : String) (now : Nat) : RespondOutcome :=
  let container_files := extractCitationsCaught responses abort
  if container_files.isEmpty then
    { events := stream, uploads := [] }
  else
    let links := buildLinks uploader container_files
    if links.isEmpty then
      { events := stream, uploads := container_files }
    else
      let item := downloadItem uuidHex12 threadId now links
      { events := stream ++ [.itemAdded item, .itemDone item]
        uploads := container_files }

/-! ## `get_container_file_content` (`main.py` lines 80-120) -/

/-- Outcome of the direct HTTP request to the OpenAI container-file API:
the bytes, an `httpx.HTTPStatusError` raised by `raise_for_status`
carrying the origin's status code and message, or any other exception. -/
inductive OriginResult where
  | ok (content : List Nat)
  | statusError (code : Nat) (message : String)
  | otherError (message : String)
  deriving DecidableEq, Repr

/-- The environment a request to the endpoint runs against. -/
structure EndpointEnv where
  apiKey : Option String
  origin : OriginResult
  deriving DecidableEq, Repr

/-- The HTTP response produced by the endpoint: the raw bytes served as
an `application/octet-stream` attachment under the given filename, or a
JSON `{"error": ...}` document with a status code. -/
inductive EndpointResponse where
  | fileAttachment (content : List Nat) (filename : String)
  | jsonError (status : Nat) (message : String)
  deriving DecidableEq, Repr

/-- What one request to the endpoint produces: the response and whether
the origin service was contacted. -/
structure EndpointOutcome where
  response : EndpointResponse
  originCalled : Bool
  deriving DecidableEq, Repr

/-- `get_container_file_content` (`main.py` lines 80-120): check the API
key (raising `ValueError "OPENAI_API_KEY not set"` when falsy), fetch the
container file from the origin, and return it as an attachment; an
`httpx.HTTPStatusError` becomes a JSON error with the origin's status
code, any other exception a JSON error with status 400. -/
def get_container_file_content (env : EndpointEnv) (filename : String) :
    EndpointOutcome :=
  if truthyStr env.apiKey = false then
    { response := .jsonError 400 "OPENAI_API_KEY not set", originCalled := false }
  else
    match env.origin with
    | .ok content =>
        { response := .fileAttachment content filename, originCalled := true }
    | .statusError code message =>
        { response := .jsonError code message, originCalled := true }
    | .otherError message =>
        { response := .jsonError 400 message, originCalled := true }

/-! ## Concrete sample data used by witnesses -/

/-- A well-formed container-file-citation annotation. -/
def sampleAnn : Annotation :=
  { type := some "container_file_citation", container_id := some "cntr"
    file_id := some "file_1", filename := some "report.png" }

/-- A raw response holding exactly `sampleAnn`. -/
def sampleResponse : RawResponse :=
  { output := some [{ content := some [{ annotations := some [sampleAnn] }] }] }

/-- The citation extracted from `sampleAnn`. -/
def sampleCitation : ContainerFile :=
  { container_id := "cntr", file_id := "file_1", filename := "report.png" }

/-- A second well-formed annotation, distinct from `sampleAnn`. -/
def sampleAnnB : Annotation :=
  { type := some "container_file_citation", container_id := some "cntr"
    file_id := some "file_2", filename := some "chart.png" }

/-- The citation extracted from `sampleAnnB`. -/
def sampleCitationB : ContainerFile :=
  { container_id := "cntr", file_id := "file_2", filename := "chart.png" }

/-- The content part holding `sampleAnn` then `sampleAnnB`. -/
def sampleContentAB : ContentPart :=
  { annotations := some [sampleAnn, sampleAnnB] }

/-- A raw response holding `sampleAnn` then `sampleAnnB`. -/
def sampleResponseAB : RawResponse :=
  { output := some [{ content := some [sampleContentAB] }] }

/-- An uploader that succeeds on `sampleCitation` and fails elsewhere. -/
def sampleUploader (cf : ContainerFile) : Option String :=
  if cf.file_id = "file_1" then some "https://blob/a" else none

/-- The content part holding `sampleAnn` twice. -/
def sampleDuplicateContent : ContentPart :=
  { annotations := some [sampleAnn, sampleAnn] }

/-- A raw response in which the same citation appears twice. -/
def sampleDuplicateResponse : RawResponse :=
  { output := some [{ content := some [sampleDuplicateContent] }] }

/-! ## Relay lemmas -/

/-- The loop body produces no link exactly when the blob URL is falsy. -/
theorem linkOf_eq_none_iff (up : ContainerFile → Option String)
    (cf : ContainerFile) :
    linkOf up cf = none ↔ truthyStr (up cf) = false := by
  unfold linkOf truthyStr
  cases up cf with
  | none => simp
  | some url => by_cases h : url.isEmpty <;> simp [h]

/-- `links` is empty exactly when every citation's upload was falsy. -/
theorem buildLinks_isEmpty_iff (up : ContainerFile → Option String)
    (cfs : List ContainerFile) :
    (buildLinks up cfs).isEmpty = true ↔ ∀ cf ∈ cfs, truthyStr (up cf) = false := by
  simp [buildLinks, List.isEmpty_iff, List.filterMap_eq_nil_iff, linkOf_eq_none_iff]

/-- The relay's upload invocations are exactly the extracted citations,
in order. -/
theorem respond_uploads_eq (s : List StreamEvent) (rs : List RawResponse)
    (up : ContainerFile → Option String) (uid tid : String) (now : Nat) :
    (respondModel s rs up uid tid now).uploads = extractCitations rs := by
  unfold respondModel
  by_cases h1 : (extractCitations rs).isEmpty
  · simp [h1, List.isEmpty_iff.mp h1]
  · by_cases h2 : (buildLinks up (extractCitations rs)).isEmpty <;>
      simp [h1, h2]

/-- The relay's output is always the stream followed by a tail that is
either empty or the synthesized added/done pair. -/
theorem relay_events_shape (s : List StreamEvent)
    (rs : List RawResponse) (up : ContainerFile → Option String)
    (uid tid : String) (now : Nat) :
    ∃ tail, (respondModel s rs up uid tid now).events = s ++ tail
      ∧ (tail = [] ∨ ∃ item, tail = [.itemAdded item, .itemDone item]) := by
  unfold respondModel
  by_cases h1 : (extractCitations rs).isEmpty
  · exact ⟨[], by simp [h1], Or.inl rfl⟩
  · by_cases h2 : (buildLinks up (extractCitations rs)).isEmpty
    · exact ⟨[], by simp [h1, h2], Or.inl rfl⟩
    · refine ⟨[.itemAdded (downloadItem uid tid now (buildLinks up (extractCitations rs))),
               .itemDone (downloadItem uid tid now (buildLinks up (extractCitations rs)))],
              by simp [h1, h2], Or.inr ⟨_, rfl⟩⟩

/-- C2 -- Every event of the agent run's stream is re-emitted unchanged
and in arrival order: the relay's output is the stream itself followed by
a tail, and the tail is either empty or the synthesized added/done pair,
so every relayed event precedes any synthesized event. -/
theorem relay_preserves_stream_order (s : List StreamEvent)
    (rs : List RawResponse) (up : ContainerFile → Option String)
    (uid tid : String) (now : Nat) :
    ∃ tail, (respondModel s rs up uid tid now).events = s ++ tail
      ∧ (tail = [] ∨ ∃ item, tail = [.itemAdded item, .itemDone item]) :=
  relay_events_shape s rs up uid tid now

/-- C3 -- The relay synthesizes an assistant message if and only if at
least one citation upload returned a truthy URL: with a successful upload
the output is the stream followed by an added event and a done event both
carrying the same fresh item whose id is `"dl_"` plus the fresh UUID hex;
with no successful upload (zero citations included) the output is exactly
the relayed stream. -/
theorem relay_synthesizes_iff_upload_url (s : List StreamEvent)
    (rs : List RawResponse) (up : ContainerFile → Option String)
    (uid tid : String) (now : Nat) :
    ((∃ cf ∈ extractCitations rs, truthyStr (up cf) = true) →
      (respondModel s rs up uid tid now).events
        = s ++ [.itemAdded (downloadItem uid tid now (buildLinks up (extractCitations rs))),
                .itemDone (downloadItem uid tid now (buildLinks up (extractCitations rs)))]
        ∧ (downloadItem uid tid now (buildLinks up (extractCitations rs))).id
            = "dl_" ++ uid)
    ∧ ((∀ cf ∈ extractCitations rs, truthyStr (up cf) = false) →
      (respondModel s rs up uid tid now).events = s) := by
  constructor
  · rintro ⟨cf, hmem, hsucc⟩
    have h1 : (extractCitations rs).isEmpty = false := by
      cases hcfs : extractCitations rs with
      | nil => rw [hcfs] at hmem; cases hmem
      | cons a l => simp [hcfs]
    have h2 : (buildLinks up (extractCitations rs)).isEmpty = false := by
      by_contra h
      have h' : (buildLinks up (extractCitations rs)).isEmpty = true := by
        revert h
        cases (buildLinks up (extractCitations rs)).isEmpty <;> simp
      have := (buildLinks_isEmpty_iff up (extractCitations rs)).mp h' cf hmem
      rw [hsucc] at this
      cases this
    constructor
    · unfold respondModel
      simp [h1, h2]
    · rfl
  · intro hall
    have h2 : (buildLinks up (extractCitations rs)).isEmpty = true :=
      (buildLinks_isEmpty_iff up (extractCitations rs)).mpr hall
    unfold respondModel
    by_cases h1 : (extractCitations rs).isEmpty <;> simp [h1, h2]

/-- Witness for C3: a run with one citation and a successful upload emits
the synthesized pair; the same run with a failing uploader emits only the
(empty) relayed stream. -/
theorem relay_synthesizes_iff_upload_url_witness :
    ((∃ cf ∈ extractCitations [sampleResponse],
        truthyStr ((fun _ => some "https://blob/a") cf) = true)
      ∧ (respondModel [] [sampleResponse] (fun _ => some "https://blob/a")
            "abcdef123456" "th" 0).events
          = [] ++ [.itemAdded (downloadItem "abcdef123456" "th" 0
                      (buildLinks (fun _ => some "https://blob/a")
                        (extractCitations [sampleResponse]))),
                   .itemDone (downloadItem "abcdef123456" "th" 0
                      (buildLinks (fun _ => some "https://blob/a")
                        (extractCitations [sampleResponse])))])
    ∧ ((∀ cf ∈ extractCitations [sampleResponse],
        truthyStr ((fun _ => none) cf : Option String) = false)
      ∧ (respondModel [] [sampleResponse] (fun _ => none)
            "abcdef123456" "th" 0).events = []) :=
  ⟨⟨by decide,
    ((relay_synthesizes_iff_upload_url [] [sampleResponse]
        (fun _ => some "https://blob/a") "abcdef123456" "th" 0).1 (by decide)).1⟩,
   ⟨by decide,
    (relay_synthesizes_iff_upload_url [] [sampleResponse]
        (fun _ => none) "abcdef123456" "th" 0).2 (by decide)⟩⟩

/-- C4 -- An individual upload failure is non-fatal: every extracted
citation is still attempted (the invocation list is the full citation
list), the link list holds exactly one markdown link per truthy upload,
and with citations `[c1, c2]` where `c1` uploads to `url` and `c2` fails,
the relay emits one synthesized item containing exactly the one link for
`c1`. -/
theorem relay_upload_failure_nonfatal (s : List StreamEvent)
    (rs : List RawResponse) (up : ContainerFile → Option String)
    (uid tid : String) (now : Nat) :
    (respondModel s rs up uid tid now).uploads = extractCitations rs
    ∧ (buildLinks up (extractCitations rs)).length
        = (extractCitations rs).countP (fun cf => truthyStr (up cf))
    ∧ (∀ c1 c2 url, extractCitations rs = [c1, c2] →
        up c1 = some url → url.isEmpty = false → up c2 = none →
        (respondModel s rs up uid tid now).events
          = s ++ [.itemAdded (downloadItem uid tid now [mkLink c1.filename url]),
                  .itemDone (downloadItem uid tid now [mkLink c1.filename url])]) := by
  refine ⟨respond_uploads_eq s rs up uid tid now, ?_, ?_⟩
  · rw [buildLinks, List.length_filterMap_eq_countP]
    have hfun : (fun cf => (linkOf up cf).isSome)
        = fun cf => truthyStr (up cf) := by
      funext cf
      unfold linkOf truthyStr
      cases up cf with
      | none => simp
      | some url => by_cases h : url.isEmpty <;> simp [h]
    rw [hfun]
  · intro c1 c2 url hcfs hup1 hurl hup2
    have hlinks : buildLinks up (extractCitations rs) = [mkLink c1.filename url] := by
      rw [hcfs]
      simp [buildLinks, linkOf, hup1, hup2, hurl]
    unfold respondModel
    rw [hcfs]
    simp only [List.isEmpty_cons, Bool.false_eq_true, if_false]
    rw [← hcfs, hlinks]
    simp

/-- Witness for C4: two citations, the second upload failing, yield the
synthesized pair with the single link for the first citation. -/
theorem relay_upload_failure_nonfatal_witness :
    (extractCitations [sampleResponseAB] = [sampleCitation, sampleCitationB]
      ∧ sampleUploader sampleCitation = some "https://blob/a"
      ∧ sampleUploader sampleCitationB = none)
    ∧ (respondModel [] [sampleResponseAB] sampleUploader "x" "t" 0).events
        = [] ++ [.itemAdded (downloadItem "x" "t" 0
                    [mkLink sampleCitation.filename "https://blob/a"]),
                 .itemDone (downloadItem "x" "t" 0
                    [mkLink sampleCitation.filename "https://blob/a"])] :=
  ⟨⟨by decide, by decide, by decide⟩,
   (relay_upload_failure_nonfatal [] [sampleResponseAB] sampleUploader
      "x" "t" 0).2.2 sampleCitation sampleCitationB "https://blob/a"
      (by decide) (by decide) (by decide) (by decide)⟩

/-- Counterexample for C5: a citation appearing twice across the raw
responses triggers two uploads, not at most one. -/
theorem relay_duplicate_citation_double_upload :
    ¬ (((respondModel [] [sampleDuplicateResponse]
          (fun _ => none) "x" "t" 0).uploads).count sampleCitation ≤ 1) := by
  decide

/-- C5 (amended) -- The relay invokes the upload collaborator once per
occurrence of a citation, in extraction order, with no de-duplication:
for every citation value, the number of upload invocations for it equals
the number of matching annotations across all raw responses. -/
theorem relay_uploads_once_per_occurrence (s : List StreamEvent)
    (rs : List RawResponse) (up : ContainerFile → Option String)
    (uid tid : String) (now : Nat) (cf : ContainerFile) :
    ((respondModel s rs up uid tid now).uploads).count cf
      = ((rs.flatMap fun r => (optList r.output).flatMap fun oi =>
            (optList oi.content).flatMap fun c => optList c.annotations).countP
          fun a => annotationCitation a == some cf) := by
  rw [respond_uploads_eq]
  have hflat : extractCitations rs
      = List.filterMap annotationCitation
          (rs.flatMap fun r => (optList r.output).flatMap fun oi =>
            (optList oi.content).flatMap fun c => optList c.annotations) := by
    unfold extractCitations
    rw [List.filterMap_flatMap]
    congr 1
    funext r
    unfold responseCitations
    rw [List.filterMap_flatMap]
    congr 1
    funext oi
    unfold outputItemCitations
    rw [List.filterMap_flatMap]
    congr 1
  rw [hflat, List.count_filterMap]


/-! ## Endpoint and upload-helper theorems -/

/-- Counterexample for C6: with the API key unset and an origin that
would report status 503, the endpoint answers a JSON error with status
400 -- neither raw bytes nor a JSON error carrying the origin's status
code. -/
theorem container_endpoint_counterexample :
    (get_container_file_content
        { apiKey := none, origin := .statusError 503 "unavailable" }
        "download").response
      = .jsonError 400 "OPENAI_API_KEY not set"
    ∧ (400 : Nat) ≠ 503 := by
  exact ⟨rfl, by decide⟩

/-- C6 (amended) -- When the API key is set, the endpoint returns the
raw bytes as an attachment on origin success and a JSON error carrying
the origin's status code on an origin HTTP-status error; a missing API
key or any other origin failure yields a JSON error with status 400. -/
theorem container_endpoint_result (env : EndpointEnv) (fn : String) :
    (truthyStr env.apiKey = true → ∀ c, env.origin = .ok c →
      (get_container_file_content env fn).response = .fileAttachment c fn)
    ∧ (truthyStr env.apiKey = true → ∀ code m, env.origin = .statusError code m →
      (get_container_file_content env fn).response = .jsonError code m)
    ∧ (truthyStr env.apiKey = true → ∀ m, env.origin = .otherError m →
      (get_container_file_content env fn).response = .jsonError 400 m)
    ∧ (truthyStr env.apiKey = false →
      (get_container_file_content env fn).response
        = .jsonError 400 "OPENAI_API_KEY not set") := by
  refine ⟨?_, ?_, ?_, ?_⟩
  · intro hk c hc
    unfold get_container_file_content
    simp [hk, hc]
  · intro hk code m hc
    unfold get_container_file_content
    simp [hk, hc]
  · intro hk m hc
    unfold get_container_file_content
    simp [hk, hc]
  · intro hk
    unfold get_container_file_content
    simp [hk]

/-- Witness for C6: the endpoint evaluated on a successful origin, an
origin 503 error, an origin timeout, and a missing key. -/
theorem container_endpoint_result_witness :
    (get_container_file_content
        { apiKey := some "sk", origin := .ok [1, 2, 3] } "a.png").response
      = .fileAttachment [1, 2, 3] "a.png"
    ∧ (get_container_file_content
        { apiKey := some "sk", origin := .statusError 503 "busy" } "a.png").response
      = .jsonError 503 "busy"
    ∧ (get_container_file_content
        { apiKey := some "sk", origin := .otherError "timeout" } "a.png").response
      = .jsonError 400 "timeout"
    ∧ (get_container_file_content
        { apiKey := some "", origin := .ok [1] } "a.png").response
      = .jsonError 400 "OPENAI_API_KEY not set" :=
  ⟨(container_endpoint_result
      { apiKey := some "sk", origin := .ok [1, 2, 3] } "a.png").1
      (by decide) [1, 2, 3] rfl,
   (container_endpoint_result
      { apiKey := some "sk", origin := .statusError 503 "busy" } "a.png").2.1
      (by decide) 503 "busy" rfl,
   (container_endpoint_result
      { apiKey := some "sk", origin := .otherError "timeout" } "a.png").2.2.1
      (by decide) "timeout" rfl,
   (container_endpoint_result
      { apiKey := some "", origin := .ok [1] } "a.png").2.2.2 (by decide)⟩

/-- C7 -- A missing (or empty) API key makes both operations that need
it fail fast at the point of use: the upload helper returns `None`
immediately, performing no external call and logging the descriptive
message, and the container-file endpoint answers a JSON error carrying
the descriptive message without contacting the origin. -/
theorem missing_api_key_fails_fast (uenv : UploadEnv) (eenv : EndpointEnv)
    (fn : String) :
    (truthyStr uenv.apiKey = false →
      upload_container_file_to_blob uenv
        = { result := none, calls := [], errorLogs := ["OPENAI_API_KEY not set"] })
    ∧ (truthyStr eenv.apiKey = false →
      get_container_file_content eenv fn
        = { response := .jsonError 400 "OPENAI_API_KEY not set"
            originCalled := false }) := by
  constructor
  · intro hk
    unfold upload_container_file_to_blob
    simp [hk]
  · intro hk
    unfold get_container_file_content
    simp [hk]

/-- Witness for C7: both operations run with the key unset. -/
theorem missing_api_key_fails_fast_witness :
    upload_container_file_to_blob
        { apiKey := none, download := .ok [1], put := .ok (some "https://u") }
      = { result := none, calls := [], errorLogs := ["OPENAI_API_KEY not set"] }
    ∧ get_container_file_content { apiKey := none, origin := .ok [1] } "download"
      = { response := .jsonError 400 "OPENAI_API_KEY not set"
          originCalled := false } :=
  ⟨(missing_api_key_fails_fast
      { apiKey := none, download := .ok [1], put := .ok (some "https://u") }
      { apiKey := none, origin := .ok [1] } "download").1 (by decide),
   (missing_api_key_fails_fast
      { apiKey := none, download := .ok [1], put := .ok (some "https://u") }
      { apiKey := none, origin := .ok [1] } "download").2 (by decide)⟩

/-- C8 -- `upload_container_file_to_blob` is total at its interface: for
every environment it returns either `None` or a URL string (never an
exception), and a missing API key, an HTTP status error on download, any
other download failure, and a blob-put failure all yield `None`. -/
theorem upload_returns_url_or_none (env : UploadEnv) :
    ((upload_container_file_to_blob env).result = none
      ∨ ∃ url, (upload_container_file_to_blob env).result = some url)
    ∧ (truthyStr env.apiKey = false →
        (upload_container_file_to_blob env).result = none)
    ∧ (∀ code, env.download = .statusError code →
        (upload_container_file_to_blob env).result = none)
    ∧ (env.download = .otherError →
        (upload_container_file_to_blob env).result = none)
    ∧ (env.put = .failure →
        (upload_container_file_to_blob env).result = none) := by
  refine ⟨?_, ?_, ?_, ?_, ?_⟩
  · cases h : (upload_container_file_to_blob env).result with
    | none => exact Or.inl rfl
    | some url => exact Or.inr ⟨url, rfl⟩
  · intro hk
    unfold upload_container_file_to_blob
    simp [hk]
  · intro code hd
    unfold upload_container_file_to_blob
    by_cases hk : truthyStr env.apiKey = false <;> simp [hk, hd]
  · intro hd
    unfold upload_container_file_to_blob
    by_cases hk : truthyStr env.apiKey = false <;> simp [hk, hd]
  · intro hp
    unfold upload_container_file_to_blob
    by_cases hk : truthyStr env.apiKey = false
    · simp [hk]
    · cases hd : env.download <;> simp [hk, hd, hp]

/-- Witness for C8: the upload helper evaluated on a missing key, a 404
download, a failed download, and a failed blob put. -/
theorem upload_returns_url_or_none_witness :
    (upload_container_file_to_blob
        { apiKey := none, download := .ok [1], put := .ok (some "u") }).result = none
    ∧ (upload_container_file_to_blob
        { apiKey := some "sk", download := .statusError 404, put := .ok (some "u") }).result = none
    ∧ (upload_container_file_to_blob
        { apiKey := some "sk", download := .otherError, put := .ok (some "u") }).result = none
    ∧ (upload_container_file_to_blob
        { apiKey := some "sk", download := .ok [1], put := .failure }).result = none :=
  ⟨(upload_returns_url_or_none
      { apiKey := none, download := .ok [1], put := .ok (some "u") }).2.1 (by decide),
   (upload_returns_url_or_none
      { apiKey := some "sk", download := .statusError 404, put := .ok (some "u") }).2.2.1
      404 rfl,
   (upload_returns_url_or_none
      { apiKey := some "sk", download := .otherError, put := .ok (some "u") }).2.2.2.1 rfl,
   (upload_returns_url_or_none
      { apiKey := some "sk", download := .ok [1], put := .failure }).2.2.2.2 rfl⟩

/-- C9 -- An annotation yields a citation if and only if its type is
`"container_file_citation"` and `container_id`, `file_id` and `filename`
are all present and non-empty; the citation carries exactly those three
field values, and a skipped annotation contributes nothing to the
extracted list. -/
theorem citation_collected_iff_fields_present (a : Annotation) :
    ((annotationCitation a).isSome = true ↔
      a.type = some "container_file_citation"
        ∧ truthyStr a.container_id = true
        ∧ truthyStr a.file_id = true
        ∧ truthyStr a.filename = true)
    ∧ (∀ cf, annotationCitation a = some cf →
        a.container_id = some cf.container_id
          ∧ a.file_id = some cf.file_id
          ∧ a.filename = some cf.filename)
    ∧ (annotationCitation a = none → ∀ rest,
        List.filterMap annotationCitation (a :: rest)
          = List.filterMap annotationCitation rest) := by
  refine ⟨?_, ?_, ?_⟩
  · unfold annotationCitation truthyStr
    by_cases ht : a.type = some "container_file_citation"
    · cases hc : a.container_id <;> cases hf : a.file_id <;>
        cases hn : a.filename <;>
        simp_all [ht] <;>
        rename_i cid fid fn <;>
        by_cases h1 : cid.isEmpty <;> by_cases h2 : fid.isEmpty <;>
        by_cases h3 : fn.isEmpty <;> simp_all
    · simp [ht]
  · intro cf hcf
    unfold annotationCitation at hcf
    split at hcf
    · split at hcf
      next cid fid fn hc hf hn =>
        split at hcf
        · injection hcf with h
          rw [← h]
          exact ⟨hc, hf, hn⟩
        · cases hcf
      next => cases hcf
    · cases hcf
  · intro hnone rest
    simp [List.filterMap_cons, hnone]

/-- Witness for C9: `sampleAnn` is collected with its three field
values, and an annotation missing its `file_id` is skipped. -/
theorem citation_collected_iff_fields_present_witness :
    (annotationCitation sampleAnn = some sampleCitation
      ∧ sampleAnn.container_id = some sampleCitation.container_id
      ∧ sampleAnn.file_id = some sampleCitation.file_id
      ∧ sampleAnn.filename = some sampleCitation.filename)
    ∧ List.filterMap annotationCitation
        [{ type := some "container_file_citation", container_id := some "cntr"
           file_id := none, filename := some "a.png" }, sampleAnn]
      = List.filterMap annotationCitation [sampleAnn] :=
  ⟨⟨by decide,
    (citation_collected_iff_fields_present sampleAnn).2.1
      sampleCitation (by decide)⟩,
   (citation_collected_iff_fields_present
      { type := some "container_file_citation", container_id := some "cntr"
        file_id := none, filename := some "a.png" }).2.2 (by decide)
      [sampleAnn]⟩

/-- C10 -- Citation extraction is defensive and its failures are
contained: a response with an absent or empty `output`, an output item
with an absent or empty `content`, a content entry with absent or empty
`annotations`, and an annotation missing any of its attributes each
contribute nothing (the entry is skipped); an exception raised at any
point of the walk is caught by the handler, leaving an empty or partial
citation list -- always a prefix (`take k`) of the full extraction, the
full list when nothing is raised, the empty list when the raise precedes
any append -- and for every abort behaviour the already-forwarded stream
events are unaffected: the relay's output still extends the stream, and
an exception-free run coincides with the plain relay. -/
theorem extraction_defensive_total (s : List StreamEvent)
    (rs : List RawResponse) (up : ContainerFile → Option String)
    (uid tid : String) (now : Nat) (abort : Option Nat) :
    (∀ r : RawResponse, optList r.output = [] → responseCitations r = [])
    ∧ (∀ oi : OutputItem, optList oi.content = [] → outputItemCitations oi = [])
    ∧ (∀ c : ContentPart, optList c.annotations = [] → contentCitations c = [])
    ∧ (∀ a : Annotation,
        (a.type = none ∨ a.container_id = none ∨ a.file_id = none
          ∨ a.filename = none) → annotationCitation a = none)
    ∧ (∀ r rest, responseCitations r = [] →
        extractCitations (r :: rest) = extractCitations rest)
    ∧ (∃ k, extractCitationsCaught rs abort = (extractCitations rs).take k)
    ∧ extractCitationsCaught rs none = extractCitations rs
    ∧ extractCitationsCaught rs (some 0) = []
    ∧ (∃ tail, (respondModelCaught s rs abort up uid tid now).events = s ++ tail)
    ∧ respondModelCaught s rs none up uid tid now
        = respondModel s rs up uid tid now := by
  refine ⟨?_, ?_, ?_, ?_, ?_, ?_, ?_, ?_, ?_, ?_⟩
  · intro r h
    unfold responseCitations
    rw [h]
    rfl
  · intro oi h
    unfold outputItemCitations
    rw [h]
    rfl
  · intro c h
    unfold contentCitations
    rw [h]
    rfl
  · intro a h
    unfold annotationCitation
    by_cases ht : a.type = some "container_file_citation"
    · rw [if_pos ht]
      cases hc : a.container_id <;> cases hf : a.file_id <;>
        cases hn : a.filename <;>
        first
          | rfl
          | (rcases h with h | h | h | h <;> simp_all)
    · rw [if_neg ht]
  · intro r rest h
    unfold extractCitations
    rw [List.flatMap_cons, h]
    rfl
  · cases abort with
    | none => exact ⟨(extractCitations rs).length, (List.take_length _).symm⟩
    | some k => exact ⟨k, rfl⟩
  · rfl
  · rfl
  · unfold respondModelCaught
    by_cases h1 : (extractCitationsCaught rs abort).isEmpty
    · exact ⟨[], by simp [h1]⟩
    · by_cases h2 : (buildLinks up (extractCitationsCaught rs abort)).isEmpty
      · exact ⟨[], by simp [h1, h2]⟩
      · exact ⟨[.itemAdded (downloadItem uid tid now
                  (buildLinks up (extractCitationsCaught rs abort))),
                .itemDone (downloadItem uid tid now
                  (buildLinks up (extractCitationsCaught rs abort)))],
               by simp [h1, h2]⟩
  · rfl

/-- Witness for C10: concrete degenerate entries are skipped, and a run
aborted after one of the two collected citations keeps a one-element
prefix while its relay output still extends the (empty) stream. -/
theorem extraction_defensive_total_witness :
    responseCitations { output := none } = []
    ∧ outputItemCitations { content := none } = []
    ∧ contentCitations { annotations := some [] } = []
    ∧ annotationCitation
        { type := some "container_file_citation", container_id := some "cntr",
          file_id := none, filename := some "a.png" } = none
    ∧ extractCitations [{ output := none }, sampleResponse]
      = extractCitations [sampleResponse]
    ∧ (∃ k, extractCitationsCaught [sampleResponseAB] (some 1)
        = (extractCitations [sampleResponseAB]).take k)
    ∧ (∃ tail, (respondModelCaught [] [sampleResponseAB] (some 1)
        sampleUploader "x" "t" 0).events = [] ++ tail) :=
  ⟨(extraction_defensive_total [] [] (fun _ => none) "x" "t" 0 none).1
      { output := none } rfl,
   (extraction_defensive_total [] [] (fun _ => none) "x" "t" 0 none).2.1
      { content := none } rfl,
   (extraction_defensive_total [] [] (fun _ => none) "x" "t" 0 none).2.2.1
      { annotations := some [] } rfl,
   (extraction_defensive_total [] [] (fun _ => none) "x" "t" 0 none).2.2.2.1
      { type := some "container_file_citation", container_id := some "cntr"
        file_id := none, filename := some "a.png" }
      (Or.inr (Or.inr (Or.inl rfl))),
   (extraction_defensive_total [] [] (fun _ => none) "x" "t" 0 none).2.2.2.2.1
      { output := none } [sampleResponse] rfl,
   (extraction_defensive_total [] [sampleResponseAB] sampleUploader
      "x" "t" 0 (some 1)).2.2.2.2.2.1,
   (extraction_defensive_total [] [sampleResponseAB] sampleUploader
      "x" "t" 0 (some 1)).2.2.2.2.2.2.2.2.1⟩

end ChatKitStarter
